import Mathlib

/-!
Shallow embedding of the OpenAlgo Alpaca broker-adapter core:
the safe conversion primitives (utils/data_utils.py), the normalization
mapper (broker/alpaca/mapping/order_data.py), the order transform
(broker/alpaca/mapping/transform_data.py), the margin derivation
(broker/alpaca/api/funds.py) and the contract sync engine
(broker/alpaca/database/master_contract_db.py).

Python scalars are modelled by `Val`; floats are modelled exactly as
rationals, and the literal parser covers sign, digits and an optional
fractional part (the shapes the broker JSON carries; exponents, inf/nan
and embedded whitespace are outside the model).  Fallible Python code is
modelled with `Except PyErr`: an `.error` value is a raised exception,
and Python's try/except blocks become matches on the `Except` value.
-/

namespace OpenAlgo

/-- A Python scalar value as it appears in a broker JSON record. -/
inductive Val where
  | none
  | str (s : String)
  | int (n : Int)
  | num (q : ℚ)
  | bool (b : Bool)
deriving DecidableEq

/-- A Python exception class (only the classes this code raises or catches). -/
inductive PyErr where
  | valueError
  | typeError
  | attributeError
  | keyError
deriving DecidableEq

deriving instance DecidableEq for Except

/-- A Python dict with string keys: an association list, first binding wins. -/
abbrev Record := List (String × Val)

/-- Python `d.get(k, default)`. -/
def dget (r : Record) (k : String) (d : Val) : Val :=
  match r.find? (fun p => p.fst == k) with
  | Option.some p => p.snd
  | Option.none => d

/-- Python `d[k]`: raises KeyError when the key is absent. -/
def ditem (r : Record) (k : String) : Except PyErr Val :=
  match r.find? (fun p => p.fst == k) with
  | Option.some p => Except.ok p.snd
  | Option.none => Except.error PyErr.keyError

/-- Membership of a key in a dict. -/
def hasKey (r : Record) (k : String) : Bool :=
  r.any (fun p => p.fst == k)

/-- Python truthiness of a scalar. -/
def truthy : Val → Bool
  | Val.none => false
  | Val.str s => s != ""
  | Val.int n => n != 0
  | Val.num q => q != 0
  | Val.bool b => b

/-- ASCII upper-casing of a string, as Python `.upper()` acts on the ASCII
range this adapter's payloads use (character by character, structurally). -/
def strUpper (s : String) : String := String.mk (s.data.map Char.toUpper)

/-- ASCII lower-casing of a string, as Python `.lower()` on the ASCII range. -/
def strLower (s : String) : String := String.mk (s.data.map Char.toLower)

/-- The numeric value of a digit list, most significant first. -/
def natOfDigits (cs : List Char) : Nat :=
  cs.foldl (fun a c => a * 10 + (c.toNat - 48)) 0

/-- An unsigned decimal literal: digits with an optional point, valued as the
exact rational (integer part, then fractional digits over a power of ten). -/
def parsePosDecimal (cs : List Char) : Option ℚ :=
  let p := cs.span Char.isDigit
  match p.snd with
  | [] => if p.fst = [] then Option.none else Option.some ((natOfDigits p.fst : ℚ))
  | c :: frac =>
    if c = '.' ∧ frac.all Char.isDigit = true ∧ (p.fst ≠ [] ∨ frac ≠ []) then
      Option.some (mkRat (natOfDigits p.fst * 10 ^ frac.length + natOfDigits frac)
        (10 ^ frac.length))
    else Option.none

/-- Python `float(s)` on a string: optional sign, then a decimal literal. -/
def parseDecimal (s : String) : Option ℚ :=
  match s.toList with
  | '-' :: rest => (parsePosDecimal rest).map Neg.neg
  | '+' :: rest => parsePosDecimal rest
  | cs => parsePosDecimal cs

/-- Python `int(s)` on a string: optional sign, digits only (no point). -/
def parseIntString (s : String) : Option Int :=
  match s.toList with
  | '-' :: rest =>
    if rest ≠ [] ∧ rest.all Char.isDigit = true then Option.some (-(natOfDigits rest : Int))
    else Option.none
  | '+' :: rest =>
    if rest ≠ [] ∧ rest.all Char.isDigit = true then Option.some ((natOfDigits rest : Int))
    else Option.none
  | cs =>
    if cs ≠ [] ∧ cs.all Char.isDigit = true then Option.some ((natOfDigits cs : Int))
    else Option.none

/-- Truncation toward zero, as Python `int()` applied to a float. -/
def pyTrunc (q : ℚ) : Int := Int.tdiv q.num (q.den : Int)

/-- Python `float(value)`: TypeError on None, ValueError on an unparseable
string, numeric and boolean values convert. -/
def pyFloat : Val → Except PyErr ℚ
  | Val.none => Except.error PyErr.typeError
  | Val.str s =>
    match parseDecimal s with
    | Option.some q => Except.ok q
    | Option.none => Except.error PyErr.valueError
  | Val.int n => Except.ok (n : ℚ)
  | Val.num q => Except.ok q
  | Val.bool b => Except.ok (if b then 1 else 0)

/-- Python `int(value)`. -/
def pyInt : Val → Except PyErr Int
  | Val.none => Except.error PyErr.typeError
  | Val.str s =>
    match parseIntString s with
    | Option.some n => Except.ok n
    | Option.none => Except.error PyErr.valueError
  | Val.int n => Except.ok n
  | Val.num q => Except.ok (pyTrunc q)
  | Val.bool b => Except.ok (if b then 1 else 0)

/-- Python `value.upper()`: AttributeError unless the value is a string. -/
def pyUpper : Val → Except PyErr String
  | Val.str s => Except.ok (strUpper s)
  | _ => Except.error PyErr.attributeError

/-- Python `str(value)`; the rendering of rationals is abstracted (no theorem
below depends on its form). -/
def pyStr : Val → String
  | Val.none => "None"
  | Val.str s => s
  | Val.int n => toString n
  | Val.num q => toString q
  | Val.bool b => if b then "True" else "False"

/-- utils/data_utils.py safe_float: None and the empty string give the
default, then `float(value)` with ValueError/TypeError caught to the default.
Call sites in the mapper use default 0. -/
def safe_float (value : Val) (default : ℚ) : ℚ :=
  if value = Val.none ∨ value = Val.str "" then default
  else
    match pyFloat value with
    | Except.ok q => q
    | Except.error _ => default

/-- utils/data_utils.py safe_int: as safe_float but converting through float
first and truncating (`int(float(value))`). -/
def safe_int (value : Val) (default : Int) : Int :=
  if value = Val.none ∨ value = Val.str "" then default
  else
    match pyFloat value with
    | Except.ok q => pyTrunc q
    | Except.error _ => default

/-- The status dict of map_order_status, in source order. -/
def statusMapping : List (String × String) :=
  [("new", "PENDING"), ("partially_filled", "OPEN"), ("filled", "COMPLETE"),
   ("done_for_day", "CANCELLED"), ("canceled", "CANCELLED"), ("expired", "CANCELLED"),
   ("replaced", "MODIFIED"), ("pending_cancel", "PENDING"), ("pending_replace", "PENDING"),
   ("accepted", "OPEN"), ("pending_new", "PENDING"), ("accepted_for_bidding", "OPEN"),
   ("stopped", "CANCELLED"), ("rejected", "REJECTED"), ("suspended", "CANCELLED"),
   ("calculated", "OPEN")]

/-- order_data.py map_order_status on a string:
`status_mapping.get(alpaca_status.lower(), alpaca_status.upper())`. -/
def map_order_status (alpaca_status : String) : String :=
  (statusMapping.lookup (strLower alpaca_status)).getD (strUpper alpaca_status)

/-- map_order_status lifted to a Python value: `.lower()` raises
AttributeError on a non-string. -/
def map_order_status_v (v : Val) : Except PyErr String :=
  match v with
  | Val.str s => Except.ok (map_order_status s)
  | _ => Except.error PyErr.attributeError

/-- The canonical order record produced by map_single_order. -/
structure CanonOrder where
  orderid : String
  symbol : Val
  exchange : String
  action : String
  quantity : Int
  price : ℚ
  product : String
  status : String
  timestamp : Val
  filled_quantity : Int
  pending_quantity : Int
  average_price : ℚ
  order_type : String
  trigger_price : ℚ
deriving DecidableEq

/-- order_data.py map_single_order.  The undefended conversions
(`int(order.get('qty', 0))`, `.upper()` on side/type, `.lower()` inside
map_order_status) can raise; the safe_float fields cannot.  Fallible steps
are sequenced in the order Python evaluates the dict literal. -/
def map_single_order (order : Record) : Except PyErr CanonOrder := do
  let action ← pyUpper (dget order "side" (Val.str ""))
  let quantity ← pyInt (dget order "qty" (Val.int 0))
  let status ← map_order_status_v (dget order "status" (Val.str ""))
  let filled ← pyInt (dget order "filled_qty" (Val.int 0))
  let otype ← pyUpper (dget order "type" (Val.str ""))
  pure
    { orderid := pyStr (dget order "id" (Val.str ""))
      symbol := dget order "symbol" (Val.str "")
      exchange := "NASDAQ"
      action := action
      quantity := quantity
      price := safe_float (dget order "limit_price" (Val.int 0)) 0
      product := "CNC"
      status := status
      timestamp := dget order "created_at" (Val.str "")
      filled_quantity := filled
      pending_quantity := quantity - filled
      average_price := safe_float (dget order "filled_avg_price" (Val.int 0)) 0
      order_type := otype
      trigger_price := safe_float (dget order "stop_price" (Val.int 0)) 0 }

/-- One pass of map_single_trade's quantity loop body: `Option.some k` when
the Python loop assigns `quantity = k` (the field is truthy and the
conversion succeeded), `Option.none` when the field is falsy or the
conversion raised (caught by the loop's try/except). -/
def qtyStep (v : Val) : Option Int :=
  if truthy v then
    match v with
    | Val.str s =>
      if s = "0" then Option.some 0
      else
        match parseDecimal s with
        | Option.some q => Option.some (pyTrunc q)
        | Option.none => Option.none
    | _ =>
      match pyFloat v with
      | Except.ok q => Option.some (pyTrunc q)
      | Except.error _ => Option.none
  else Option.none

/-- The quantity loop: break on the first strictly positive assignment, keep
the last assignment otherwise. -/
def qtyLoop : List Val → Int → Int
  | [], cur => cur
  | v :: rest, cur =>
    match qtyStep v with
    | Option.some k => if k > 0 then k else qtyLoop rest k
    | Option.none => qtyLoop rest cur

/-- The candidate quantity fields of a trade, in the order the loop tries
them. -/
def qtyFields (trade : Record) : List Val :=
  [dget trade "filled_qty" (Val.int 0), dget trade "qty" (Val.int 0),
   dget trade "quantity" (Val.int 0)]

/-- map_single_trade's quantity extraction. -/
def extract_quantity (trade : Record) : Int :=
  qtyLoop (qtyFields trade) 0

/-- One pass of the price loop body (same caught-conversion pattern, float
valued). -/
def priceStep (v : Val) : Option ℚ :=
  if truthy v then
    match v with
    | Val.str s =>
      if s = "0" then Option.some 0
      else
        match parseDecimal s with
        | Option.some q => Option.some q
        | Option.none => Option.none
    | _ =>
      match pyFloat v with
      | Except.ok q => Option.some q
      | Except.error _ => Option.none
  else Option.none

/-- The price loop: break on the first strictly positive assignment. -/
def priceLoop : List Val → ℚ → ℚ
  | [], cur => cur
  | v :: rest, cur =>
    match priceStep v with
    | Option.some p => if p > 0 then p else priceLoop rest p
    | Option.none => priceLoop rest cur

/-- map_single_trade's price extraction over
[filled_avg_price, avg_fill_price, price, limit_price]. -/
def extract_price (trade : Record) : ℚ :=
  priceLoop
    [dget trade "filled_avg_price" (Val.int 0), dget trade "avg_fill_price" (Val.int 0),
     dget trade "price" (Val.int 0), dget trade "limit_price" (Val.int 0)] 0

/-- map_single_trade's fallback price pass: only when quantity > 0 and the
extracted price is exactly 0, scan [stop_price, trail_price]. -/
def fallback_price (trade : Record) (quantity : Int) (ap : ℚ) : ℚ :=
  if quantity > 0 ∧ ap = 0 then
    priceLoop [dget trade "stop_price" (Val.int 0), dget trade "trail_price" (Val.int 0)] ap
  else ap

/-- The timestamp loop: the first truthy candidate, else the last candidate's
value (the Python loop variable keeps the final `get` result). -/
def tsLoop : List Val → Val → Val
  | [], cur => cur
  | v :: rest, _ => if truthy v then v else tsLoop rest v

/-- The canonical trade record produced by map_single_trade. -/
structure CanonTrade where
  tradeid : String
  orderid : String
  symbol : Val
  exchange : String
  action : String
  quantity : Int
  average_price : ℚ
  trade_value : ℚ
  price : ℚ
  product : String
  timestamp : Val
  order_type : String
  status : String
deriving DecidableEq

/-- map_single_trade's side extraction: `trade.get('side', '').upper()`,
falling back to `trade.get('transaction_type', trade.get('action', ''))`
upper-cased when the first result is empty. -/
def trade_side (trade : Record) : Except PyErr String :=
  match pyUpper (dget trade "side" (Val.str "")) with
  | Except.error e => Except.error e
  | Except.ok side0 =>
    if side0 = "" then
      pyUpper (dget trade "transaction_type" (dget trade "action" (Val.str "")))
    else Except.ok side0

/-- map_single_trade's order-type extraction: `trade.get('type', '')`
upper-cased, falling back to `trade.get('order_type', 'MARKET')` upper-cased
when empty. -/
def trade_order_type (trade : Record) : Except PyErr String :=
  match pyUpper (dget trade "type" (Val.str "")) with
  | Except.error e => Except.error e
  | Except.ok ot0 =>
    if ot0 = "" then pyUpper (dget trade "order_type" (Val.str "MARKET"))
    else Except.ok ot0

/-- order_data.py map_single_trade.  The quantity/price loops never raise
(their conversions are inside try/except); the side and order-type
extractions call `.upper()` on raw values and can raise. -/
def map_single_trade (trade : Record) : Except PyErr CanonTrade :=
  let quantity := extract_quantity trade
  let average_price := fallback_price trade quantity (extract_price trade)
  let trade_value : ℚ :=
    if quantity > 0 ∧ average_price > 0 then (quantity : ℚ) * average_price else 0
  match trade_side trade with
  | Except.error e => Except.error e
  | Except.ok side =>
    match trade_order_type trade with
    | Except.error e => Except.error e
    | Except.ok order_type =>
      Except.ok
        { tradeid := pyStr (dget trade "trade_id" (dget trade "id" (Val.str "")))
          orderid := pyStr (dget trade "order_id" (dget trade "id" (Val.str "")))
          symbol := dget trade "symbol" (Val.str "")
          exchange := "NASDAQ"
          action := side
          quantity := quantity
          average_price := average_price
          trade_value := trade_value
          price := average_price
          product := "CNC"
          timestamp := tsLoop
            [dget trade "filled_at" (Val.str ""), dget trade "updated_at" (Val.str ""),
             dget trade "submitted_at" (Val.str ""), dget trade "created_at" (Val.str "")]
            (Val.str "")
          order_type := order_type
          status := "COMPLETE" }

/-- The canonical position record produced by map_single_position. -/
structure CanonPosition where
  symbol : Val
  exchange : String
  quantity : Int
  product : String
  average_price : ℚ
  pnl : ℚ
  day_change : ℚ
  market_value : ℚ
  side : Val
deriving DecidableEq

/-- order_data.py map_single_position: every numeric field goes through
safe_float, so no step raises (a falsy/empty record yields Python None,
modelled as `Option.none`). -/
def map_single_position (position_data : Record) : Except PyErr (Option CanonPosition) :=
  if position_data = [] then Except.ok Option.none
  else
    Except.ok (Option.some
      { symbol := dget position_data "symbol" (Val.str "")
        exchange := "NASDAQ"
        quantity := pyTrunc (safe_float (dget position_data "qty" (Val.int 0)) 0)
        product := "CNC"
        average_price := safe_float (dget position_data "avg_entry_price" (Val.int 0)) 0
        pnl := safe_float (dget position_data "unrealized_pl" (Val.int 0)) 0
        day_change := safe_float (dget position_data "unrealized_intraday_pl" (Val.int 0)) 0
        market_value := safe_float (dget position_data "market_value" (Val.int 0)) 0
        side := dget position_data "side" (Val.str "") })

/-- transform_data.py map_action on a string:
`mapping.get(action.upper(), action.lower())`. -/
def map_action (action : String) : String :=
  ([("BUY", "buy"), ("SELL", "sell")].lookup (strUpper action)).getD (strLower action)

/-- map_action lifted to a Python value (`.upper()` raises on a non-string). -/
def map_action_v (v : Val) : Except PyErr String :=
  match v with
  | Val.str s => Except.ok (map_action s)
  | _ => Except.error PyErr.attributeError

/-- The order-type dict of transform_data.py map_order_type. -/
def orderTypeMapping : List (String × String) :=
  [("MARKET", "market"), ("LIMIT", "limit"), ("SL", "stop"), ("SL-M", "stop"),
   ("STOP", "stop"), ("STOP_LIMIT", "stop_limit")]

/-- transform_data.py map_order_type: unrecognized price types default to
market. -/
def map_order_type (pricetype : String) : String :=
  (orderTypeMapping.lookup (strUpper pricetype)).getD "market"

/-- map_order_type lifted to a Python value. -/
def map_order_type_v (v : Val) : Except PyErr String :=
  match v with
  | Val.str s => Except.ok (map_order_type s)
  | _ => Except.error PyErr.attributeError

/-- transform_data.py map_validity: unrecognized validities default to day. -/
def map_validity (validity : String) : String :=
  ([("DAY", "day"), ("GTC", "gtc"), ("IOC", "ioc"), ("FOK", "fok")].lookup
    (strUpper validity)).getD "day"

/-- map_validity lifted to a Python value. -/
def map_validity_v (v : Val) : Except PyErr String :=
  match v with
  | Val.str s => Except.ok (map_validity s)
  | _ => Except.error PyErr.attributeError

/-- The exchange dict of transform_data.py map_exchange. -/
def exchangeMapping : List (String × String) :=
  [("NASDAQ", "NASDAQ"), ("NYSE", "NYSE"), ("AMEX", "AMEX")]

/-- transform_data.py map_exchange: the three US venues map to themselves,
anything else raises ValueError with a message naming the offending value
and the supported set (`list(mapping.keys())` renders as the bracketed
list). -/
def map_exchange (exchange : String) : Except String String :=
  match exchangeMapping.lookup (strUpper exchange) with
  | Option.some v => Except.ok v
  | Option.none =>
    Except.error ("Exchange '" ++ exchange ++
      "' is not supported by Alpaca. Supported exchanges: ['NASDAQ', 'NYSE', 'AMEX']")

/-- Python repr of a float, abstracted to the exact rational rendering; no
theorem below depends on its form. -/
def floatRepr (q : ℚ) : String := toString q

/-- transform_data.py transform_data: canonical order -> broker request body.
`data['symbol']` etc. raise KeyError when absent; `limit_price` is appended
only when the upper-cased pricetype is LIMIT or STOP_LIMIT, `stop_price`
only when it is STOP or STOP_LIMIT; `extended_hours` is copied with default
False.  Fallible steps are sequenced in Python's evaluation order. -/
def transform_data (data : Record) : Except PyErr Record :=
  match ditem data "symbol" with
  | Except.error e => Except.error e
  | Except.ok symbol =>
    match (ditem data "action").bind map_action_v with
    | Except.error e => Except.error e
    | Except.ok side =>
      match (ditem data "pricetype").bind map_order_type_v with
      | Except.error e => Except.error e
      | Except.ok otype =>
        match (ditem data "quantity").bind pyInt with
        | Except.error e => Except.error e
        | Except.ok qty =>
          match map_validity_v (dget data "validity" (Val.str "day")) with
          | Except.error e => Except.error e
          | Except.ok tif =>
            match (ditem data "pricetype").bind pyUpper with
            | Except.error e => Except.error e
            | Except.ok ptU =>
              match (if ptU = "LIMIT" ∨ ptU = "STOP_LIMIT" then
                  (pyFloat (dget data "price" (Val.int 0))).map
                    (fun p => [("limit_price", Val.str (floatRepr p))])
                else Except.ok []) with
              | Except.error e => Except.error e
              | Except.ok lim =>
                match (if ptU = "STOP" ∨ ptU = "STOP_LIMIT" then
                    (pyFloat (dget data "trigger_price" (Val.int 0))).map
                      (fun p => [("stop_price", Val.str (floatRepr p))])
                  else Except.ok []) with
                | Except.error e => Except.error e
                | Except.ok stp =>
                  Except.ok ([("symbol", symbol), ("side", Val.str side),
                    ("type", Val.str otype), ("qty", Val.str (toString qty)),
                    ("time_in_force", Val.str tif)] ++ lim ++ stp
                    ++ [("extended_hours", dget data "extended_hours" (Val.bool false))])

/-- The funds snapshot payload of funds.py get_margin_data. -/
structure MarginData where
  availablecash : String
  collateral : String
  utiliseddebits : String
  m2munrealized : String
  m2mrealized : String
deriving DecidableEq

/-- The all-zero snapshot returned on any extraction error. -/
def zeroMargin : MarginData :=
  { availablecash := "0.00", collateral := "0.00", utiliseddebits := "0.00",
    m2munrealized := "0.00", m2mrealized := "0.00" }

/-- Round the integer fraction n / d (d > 0) to the nearest integer, ties to
even (the rounding of Python's fixed-point float formatting). -/
def intRoundHalfEven (n d : Int) : Int :=
  let f := Int.fdiv n d
  let r2 := 2 * (n - f * d)
  if r2 < d then f
  else if d < r2 then f + 1
  else if f % 2 = 0 then f else f + 1

/-- Left-pad a sub-hundred number to two digits. -/
def pad2 (n : Nat) : String :=
  if n < 10 then "0" ++ toString n else toString n

/-- Python `"{:.2f}".format(x)`: round the value to two decimal places (the
rounded cent count is `x * 100 = x.num * 100 / x.den` rounded half-even) and
render with a sign, the integer part and exactly two fractional digits. -/
def fmt2 (q : ℚ) : String :=
  let cents := intRoundHalfEven (q.num * 100) (q.den : Int)
  let sign := if cents < 0 then "-" else ""
  sign ++ toString (cents.natAbs / 100) ++ "." ++ pad2 (cents.natAbs % 100)

/-- The margin computation inside funds.py get_margin_data's try block, over
the fetched account record: five `float(account_data.get(..., 0))`
extractions, the two conditional P&L heuristics, then two-decimal
formatting. -/
def account_margin (account_data : Record) : Except PyErr MarginData :=
  match pyFloat (dget account_data "cash" (Val.int 0)) with
  | Except.error e => Except.error e
  | Except.ok cash =>
    match pyFloat (dget account_data "buying_power" (Val.int 0)) with
    | Except.error e => Except.error e
    | Except.ok buying_power =>
      match pyFloat (dget account_data "equity" (Val.int 0)) with
      | Except.error e => Except.error e
      | Except.ok equity =>
        match pyFloat (dget account_data "last_equity" (Val.int 0)) with
        | Except.error e => Except.error e
        | Except.ok last_equity =>
          match pyFloat (dget account_data "initial_margin" (Val.int 0)) with
          | Except.error e => Except.error e
          | Except.ok initial_margin =>
            Except.ok
              { availablecash := fmt2 cash
                collateral := fmt2 (buying_power - cash)
                utiliseddebits := fmt2 initial_margin
                m2munrealized := fmt2 (if equity > 0 ∧ cash > 0 then equity - cash else 0)
                m2mrealized := fmt2 (if last_equity > 0 then equity - last_equity else 0) }

/-- funds.py get_margin_data with the network fetch modelled as the given
account record: the surrounding try/except turns any raised error into the
all-zero snapshot. -/
def get_margin_data (account_data : Record) : MarginData :=
  match account_margin account_data with
  | Except.ok m => m
  | Except.error _ => zeroMargin

/-- A broker asset record as consumed by the sync engine (the five fields
process_master_contract reads, with the code's `get` defaults applied at the
boundary). -/
structure Asset where
  symbol : String
  name : String
  exchange : String
  id : String
  tradable : Bool
deriving DecidableEq

/-- A persisted catalog row (master_contract_db.py SymToken). -/
structure SymToken where
  symbol : String
  brsymbol : String
  name : String
  exchange : String
  brexchange : String
  token : String
  expiry : String
  strike : ℚ
  lotsize : Int
  instrumenttype : String
  tick_size : ℚ
deriving DecidableEq

/-- The exchange dict of master_contract_db.py map_alpaca_exchange. -/
def alpacaExchangeMapping : List (String × String) :=
  [("NASDAQ", "NASDAQ"), ("NYSE", "NYSE"), ("AMEX", "AMEX"),
   ("ARCA", "NYSE"), ("BATS", "NASDAQ"), ("IEX", "NASDAQ")]

/-- master_contract_db.py map_alpaca_exchange: unknown broker exchanges
default to NASDAQ. -/
def map_alpaca_exchange (alpaca_exchange : String) : String :=
  (alpacaExchangeMapping.lookup alpaca_exchange).getD "NASDAQ"

/-- The venues whose rows process_master_contract deletes before inserting. -/
def managedVenues : List String := ["NASDAQ", "NYSE", "AMEX"]

/-- The filter of the sync loop: skip non-tradable assets and assets without
a symbol. -/
def keepAsset (a : Asset) : Bool := a.tradable && a.symbol != ""

/-- The SymToken row process_master_contract builds for one kept asset. -/
def rowOfAsset (a : Asset) : SymToken :=
  { symbol := a.symbol, brsymbol := a.symbol, name := a.name,
    exchange := map_alpaca_exchange a.exchange, brexchange := a.exchange,
    token := a.id, expiry := "", strike := 0, lotsize := 1,
    instrumenttype := "EQ", tick_size := mkRat 1 100 }

/-- The outcome of one process_master_contract call: the committed catalog
and the exception raised, if any (on an exception the session was rolled
back, so the committed catalog is the caller's). -/
structure SyncOutcome where
  committed : List SymToken
  raised : Option String
deriving DecidableEq

/-- The partition delete inside the transaction: drop every row whose
brexchange is one of the managed venues. -/
def deleteAlpacaRows (db : List SymToken) : List SymToken :=
  db.filter (fun r => !(managedVenues.contains r.brexchange))

/-- master_contract_db.py process_master_contract over an explicit catalog
state: raise on empty input; otherwise delete the partition and insert the
kept rows inside the session, and either commit (no exception) or roll the
uncommitted session back and re-raise (empty filtered set).  `pending` is
the session's uncommitted state; the rollback branches discard it. -/
def process_master_contract (assets_data : List Asset) (db : List SymToken) : SyncOutcome :=
  if assets_data = [] then { committed := db, raised := Option.some "No assets data provided" }
  else
    let pending := deleteAlpacaRows db ++ (assets_data.filter keepAsset).map rowOfAsset
    if (assets_data.filter keepAsset).length = 0 then
      { committed := db, raised := Option.some "No tradable assets found to process" }
    else { committed := pending, raised := Option.none }

/-- The first strictly positive value the quantity loop's candidate fields
yield, in order (the assignment at which the loop breaks). -/
def firstPos : List Val → Option Int
  | [] => Option.none
  | v :: rest =>
    match qtyStep v with
    | Option.some k => if k > 0 then Option.some k else firstPos rest
    | Option.none => firstPos rest

/-- The last assignment the quantity loop makes over the whole candidate
list: the value that leaks out when no field yields a strictly positive
integer. -/
def lastAssigned : List Val → Option Int
  | [] => Option.none
  | v :: rest =>
    match lastAssigned rest with
    | Option.some k => Option.some k
    | Option.none => qtyStep v

/-- A broker trade record with only `qty` and `side` set (witness input). -/
def exTrade : Record := [("qty", Val.str "5"), ("side", Val.str "buy")]

/-- The canonical trade map_single_trade produces for `exTrade`. -/
def exTradeOut : CanonTrade :=
  { tradeid := "", orderid := "", symbol := Val.str "", exchange := "NASDAQ",
    action := "BUY", quantity := 5, average_price := 0, trade_value := 0, price := 0,
    product := "CNC", timestamp := Val.str "", order_type := "MARKET", status := "COMPLETE" }

/-- A canonical limit-order request (witness input). -/
def exOrder : Record :=
  [("symbol", Val.str "AAPL"), ("action", Val.str "BUY"), ("quantity", Val.int 10),
   ("pricetype", Val.str "LIMIT"), ("price", Val.int 100)]

/-- The broker request body transform_data produces for `exOrder`. -/
def exOrderOut : Record :=
  [("symbol", Val.str "AAPL"), ("side", Val.str "buy"), ("type", Val.str "limit"),
   ("qty", Val.str "10"), ("time_in_force", Val.str "day"),
   ("limit_price", Val.str (floatRepr ((100 : Int) : ℚ))),
   ("extended_hours", Val.bool false)]

/-- A broker account record with integer-valued monetary strings (witness
input). -/
def exAcct : Record :=
  [("cash", Val.str "1000"), ("buying_power", Val.str "2000"),
   ("equity", Val.str "1100"), ("last_equity", Val.str "1050")]

/-- An account record whose cash field is None, so extraction raises
(witness input). -/
def badAcct : Record := [("cash", Val.none)]

/-- A tradable ARCA-listed asset (the failing input of the sync-idempotence
claim). -/
def arcaAsset : Asset :=
  { symbol := "X", name := "X Corp", exchange := "ARCA", id := "id1", tradable := true }

/-- A non-tradable asset, filtered out by the sync loop (witness input). -/
def ntAsset : Asset :=
  { symbol := "Y", name := "Y Inc", exchange := "NYSE", id := "id2", tradable := false }

/-- A pre-existing catalog row (witness input). -/
def preRow : SymToken :=
  rowOfAsset { symbol := "Z", name := "Z Equity", exchange := "NASDAQ", id := "id3",
               tradable := true }

/-- master_contract_db.py get_contract_count: the whole table's row count. -/
def get_contract_count (db : List SymToken) : Nat := db.length

/-- master_contract_db.py download_master_contract with the HTTP fetch
modelled as its result (`Option.none` = no/None response body): an empty or
missing asset list returns False before any catalog access; an exception
from process_master_contract is caught and returns False; a zero post-store
count returns False; otherwise True. -/
def download_master_contract (fetched : Option (List Asset)) (db : List SymToken) :
    Bool × List SymToken :=
  match fetched with
  | Option.none => (false, db)
  | Option.some assets_data =>
    if assets_data.length = 0 then (false, db)
    else
      let out := process_master_contract assets_data db
      match out.raised with
      | Option.some _ => (false, out.committed)
      | Option.none =>
        if get_contract_count out.committed = 0 then (false, out.committed)
        else (true, out.committed)


/-- Helper: a lookup over an association list none of whose keys is `k`
yields nothing. -/
theorem lookup_eq_none_of_ne {β : Type} (k : String) (l : List (String × β))
    (h : ∀ p ∈ l, k ≠ p.fst) : l.lookup k = Option.none := by
  induction l with
  | nil => rfl
  | cons p rest ih =>
    obtain ⟨a, b⟩ := p
    have hne : (k == a) = false :=
      beq_eq_false_iff_ne.mpr (h ⟨a, b⟩ (List.mem_cons_self _ _))
    simp only [List.lookup, hne]
    exact ih (fun q hq => h q (List.mem_cons_of_mem _ hq))

/-- C1: running process_master_contract twice on the unchanged asset list
[arcaAsset] starting from an empty catalog stores 1 row after the first run
but 2 rows after the second, and afterwards two rows share the (symbol,
exchange) pair ("X", "NYSE"): the partition delete only covers brexchange
NASDAQ/NYSE/AMEX, never the stored ARCA value, so the claimed idempotence
and uniqueness fail. -/
theorem C1_sync_twice_duplicates :
    (process_master_contract [arcaAsset] []).raised = Option.none ∧
    get_contract_count (process_master_contract [arcaAsset] []).committed = 1 ∧
    (process_master_contract [arcaAsset]
      (process_master_contract [arcaAsset] []).committed).raised = Option.none ∧
    get_contract_count (process_master_contract [arcaAsset]
      (process_master_contract [arcaAsset] []).committed).committed = 2 ∧
    ((process_master_contract [arcaAsset]
      (process_master_contract [arcaAsset] []).committed).committed.filter
      (fun t => t.symbol == "X" && t.exchange == "NYSE")).length = 2 := by
  decide

/-- C2 counterexample: map_single_order raises on a record whose qty is a
non-numeric string, and map_single_trade raises on a record whose side is
None, so the mapper functions are not total as claimed. -/
theorem C2_mapper_raises_counterexample :
    (map_single_order [("qty", Val.str "abc")]).isOk = false ∧
    (map_single_trade [("side", Val.none)]).isOk = false := by
  exact ⟨rfl, rfl⟩

/-- C2 amended: map_single_position never raises on any record, and
map_order_status never raises on any string status (returning its
case-insensitive table lookup); map_single_order and map_single_trade are
exempted, as the counterexample shows them raising on mistyped undefended
fields. -/
theorem C2_position_and_status_total (r : Record) (s : String) :
    (map_single_position r).isOk = true ∧
    map_order_status_v (Val.str s) = Except.ok (map_order_status s) := by
  constructor
  · unfold map_single_position
    split <;> rfl
  · rfl

/-- C4: map_order_status sends every broker status in the taxonomy table to
exactly the listed canonical value, case-insensitively (any string whose
ASCII lower-casing is the table key), and upper-cases every string outside
the table. -/
theorem C4_map_order_status_taxonomy (s : String) :
    ((strLower s = "new" ∨ strLower s = "pending_new" ∨ strLower s = "pending_cancel" ∨
      strLower s = "pending_replace") → map_order_status s = "PENDING") ∧
    ((strLower s = "partially_filled" ∨ strLower s = "accepted" ∨
      strLower s = "accepted_for_bidding" ∨ strLower s = "calculated") →
      map_order_status s = "OPEN") ∧
    (strLower s = "filled" → map_order_status s = "COMPLETE") ∧
    ((strLower s = "done_for_day" ∨ strLower s = "canceled" ∨ strLower s = "expired" ∨
      strLower s = "stopped" ∨ strLower s = "suspended") → map_order_status s = "CANCELLED") ∧
    (strLower s = "replaced" → map_order_status s = "MODIFIED") ∧
    (strLower s = "rejected" → map_order_status s = "REJECTED") ∧
    (strLower s ∉ ["new", "partially_filled", "filled", "done_for_day", "canceled",
      "expired", "replaced", "pending_cancel", "pending_replace", "accepted",
      "pending_new", "accepted_for_bidding", "stopped", "rejected", "suspended",
      "calculated"] → map_order_status s = strUpper s) := by
  refine ⟨?_, ?_, ?_, ?_, ?_, ?_, ?_⟩
  · rintro (h | h | h | h) <;> (unfold map_order_status; rw [h]) <;> rfl
  · rintro (h | h | h | h) <;> (unfold map_order_status; rw [h]) <;> rfl
  · intro h; unfold map_order_status; rw [h]; rfl
  · rintro (h | h | h | h | h) <;> (unfold map_order_status; rw [h]) <;> rfl
  · intro h; unfold map_order_status; rw [h]; rfl
  · intro h; unfold map_order_status; rw [h]; rfl
  · intro h
    unfold map_order_status
    rw [lookup_eq_none_of_ne (strLower s) statusMapping ?_]
    · rfl
    · intro p hp
      simp only [statusMapping, List.mem_cons, List.not_mem_nil, or_false] at hp
      rcases hp with rfl | rfl | rfl | rfl | rfl | rfl | rfl | rfl | rfl | rfl | rfl | rfl |
        rfl | rfl | rfl | rfl <;>
        (intro he; exact h (by rw [he]; decide))

/-- C4 witness: a mixed-case table entry maps to its canonical value, and a
string outside the table passes through upper-cased. -/
theorem C4_witness :
    map_order_status "FiLLeD" = "COMPLETE" ∧
    map_order_status "strange_status" = "STRANGE_STATUS" := by
  constructor
  · exact (C4_map_order_status_taxonomy "FiLLeD").2.2.1 (by decide)
  · exact (C4_map_order_status_taxonomy "strange_status").2.2.2.2.2.2 (by decide)

/-- C6: map_exchange accepts exactly NASDAQ, NYSE and AMEX
(case-insensitively), returning the canonical upper-cased name, and raises
on every other value with a message naming the offending value and the
supported set. -/
theorem C6_map_exchange_validation (s : String) :
    ((strUpper s = "NASDAQ" ∨ strUpper s = "NYSE" ∨ strUpper s = "AMEX") →
      map_exchange s = Except.ok (strUpper s)) ∧
    (strUpper s ≠ "NASDAQ" → strUpper s ≠ "NYSE" → strUpper s ≠ "AMEX" →
      map_exchange s = Except.error ("Exchange '" ++ s ++
        "' is not supported by Alpaca. Supported exchanges: ['NASDAQ', 'NYSE', 'AMEX']")) := by
  constructor
  · rintro (h | h | h) <;> (unfold map_exchange; rw [h]) <;> rfl
  · intro h1 h2 h3
    unfold map_exchange
    rw [lookup_eq_none_of_ne (strUpper s) exchangeMapping ?_]
    · intro p hp
      simp only [exchangeMapping, List.mem_cons, List.not_mem_nil, or_false] at hp
      rcases hp with rfl | rfl | rfl
      · exact h1
      · exact h2
      · exact h3

/-- C6 witness: a lower-cased supported venue is accepted canonically, and
LSE is rejected with the message naming it and the supported venues. -/
theorem C6_witness :
    map_exchange "nasdaq" = Except.ok "NASDAQ" ∧
    map_exchange "LSE" = Except.error
      "Exchange 'LSE' is not supported by Alpaca. Supported exchanges: ['NASDAQ', 'NYSE', 'AMEX']" := by
  constructor
  · exact (C6_map_exchange_validation "nasdaq").1 (by decide)
  · exact (C6_map_exchange_validation "LSE").2 (by decide) (by decide) (by decide)

/-- C7: a missing or empty asset list makes download_master_contract return
failure with the catalog untouched: no mutation happens on the empty-feed
path. -/
theorem C7_empty_feed_no_mutation (db : List SymToken) :
    download_master_contract Option.none db = (false, db) ∧
    download_master_contract (Option.some []) db = (false, db) :=
  ⟨rfl, rfl⟩

/-- C10: safe_float and safe_int are total: None and the empty string give
the caller's default, any value whose float conversion raises gives the
default, any value that converts gives the parsed value (safe_int
truncating toward zero through float), and the float-string "123.9"
truncates to 123. -/
theorem C10_safe_conversions (v : Val) (d : ℚ) (di : Int) :
    safe_float Val.none d = d ∧ safe_float (Val.str "") d = d ∧
    safe_int Val.none di = di ∧ safe_int (Val.str "") di = di ∧
    ((pyFloat v).isOk = false → safe_float v d = d ∧ safe_int v di = di) ∧
    (∀ q, pyFloat v = Except.ok q → safe_float v d = q ∧ safe_int v di = pyTrunc q) ∧
    safe_int (Val.str "123.9") 0 = 123 := by
  refine ⟨rfl, rfl, rfl, rfl, ?_, ?_, by decide⟩
  · intro hf
    obtain ⟨e, he⟩ : ∃ e, pyFloat v = Except.error e := by
      cases hpf : pyFloat v with
      | ok q => rw [hpf] at hf; simp [Except.isOk, Except.toBool] at hf
      | error e => exact ⟨e, rfl⟩
    constructor
    · unfold safe_float
      split
      · rfl
      · rw [he]
    · unfold safe_int
      split
      · rfl
      · rw [he]
  · intro q hq
    have h1 : v ≠ Val.none := by
      rintro rfl
      simp [pyFloat] at hq
    have h2 : v ≠ Val.str "" := by
      rintro rfl
      have hemp : parseDecimal "" = Option.none := rfl
      simp [pyFloat, hemp] at hq
    constructor
    · unfold safe_float
      rw [if_neg (by simp [h1, h2]), hq]
    · unfold safe_int
      rw [if_neg (by simp [h1, h2]), hq]

/-- C10 witness: a garbage string degrades to the default in both
conversions, and parsable values convert (truncating for safe_int). -/
theorem C10_witness :
    (safe_float (Val.str "bogus") 3 = 3 ∧ safe_int (Val.str "bogus") 7 = 7) ∧
    (safe_float (Val.str "42") 0 = 42 ∧ safe_int (Val.str "42") 0 = 42) ∧
    safe_int (Val.str "123.9") 0 = 123 := by
  refine ⟨?_, ?_, (C10_safe_conversions (Val.int 0) 0 0).2.2.2.2.2.2⟩
  · exact (C10_safe_conversions (Val.str "bogus") 3 7).2.2.2.2.1 (by decide)
  · have h := (C10_safe_conversions (Val.str "42") 0 0).2.2.2.2.2.1 42 (by decide)
    exact ⟨h.1, h.2⟩


/-- Helper: the quantity loop returns the first strictly positive parsed
candidate, and otherwise the last parsed candidate (the initial accumulator
when nothing parsed). -/
theorem qtyLoop_eq (l : List Val) : ∀ cur : Int,
    qtyLoop l cur = (firstPos l).getD ((lastAssigned l).getD cur) := by
  induction l with
  | nil => intro cur; rfl
  | cons v rest ih =>
    intro cur
    unfold qtyLoop firstPos lastAssigned
    cases hs : qtyStep v with
    | some k =>
      dsimp only
      by_cases hk : k > 0
      · simp [hk]
      · rw [if_neg hk, if_neg hk, ih k]
        cases hf : firstPos rest with
        | some m => simp
        | none =>
          cases hl : lastAssigned rest with
          | some m => simp [hl]
          | none => simp [hl]
    | none =>
      dsimp only
      rw [ih cur]
      cases hf : firstPos rest with
      | some m => simp
      | none =>
        cases hl : lastAssigned rest with
        | some m => simp [hl]
        | none => simp [hl, hs]

/-- C3 counterexample: a trade whose only quantity candidate is the negative
string "-5" is mapped to quantity -5 (the loop's last assignment leaks out),
not to the claimed quantity 0; trade_value is still 0. -/
theorem C3_negative_qty_counterexample :
    (map_single_trade [("filled_qty", Val.str "-5"), ("side", Val.str "buy"),
      ("symbol", Val.str "AAPL")]).map (fun t => (t.quantity, t.trade_value)) =
    Except.ok ((-5 : Int), (0 : ℚ)) := by
  decide

/-- C3 amended: map_single_trade tries filled_qty, qty, quantity in order,
parsing each truthy value as a float truncated to an integer and accepting
the first strictly positive result; when no candidate yields a strictly
positive integer the quantity is the last value that parsed (possibly
negative or zero; 0 when none parsed), and trade_value is 0 whenever the
quantity is not strictly positive. -/
theorem C3_trade_quantity_amended (trade : Record) (t : CanonTrade)
    (h : map_single_trade trade = Except.ok t) :
    t.quantity = (firstPos (qtyFields trade)).getD ((lastAssigned (qtyFields trade)).getD 0) ∧
    (¬ t.quantity > 0 → t.trade_value = 0) := by
  have hq : t.quantity = extract_quantity trade ∧
      t.trade_value = (if extract_quantity trade > 0 ∧
        fallback_price trade (extract_quantity trade) (extract_price trade) > 0 then
        (extract_quantity trade : ℚ) *
          fallback_price trade (extract_quantity trade) (extract_price trade) else 0) := by
    unfold map_single_trade at h
    split at h
    · exact absurd h (by simp)
    · split at h
      · exact absurd h (by simp)
      · rw [Except.ok.injEq] at h
        subst h
        exact ⟨rfl, rfl⟩
  constructor
  · rw [hq.1]
    exact qtyLoop_eq (qtyFields trade) 0
  · intro hpos
    rw [hq.1] at hpos
    rw [hq.2, if_neg (fun hc => hpos hc.1)]

/-- C3 witness: a trade with qty="5" and no other quantity field maps to
quantity 5 (and its zero quantity-path conjunct holds vacuously). -/
theorem C3_witness :
    exTradeOut.quantity =
      (firstPos (qtyFields exTrade)).getD ((lastAssigned (qtyFields exTrade)).getD 0) ∧
    (¬ exTradeOut.quantity > 0 → exTradeOut.trade_value = 0) :=
  C3_trade_quantity_amended exTrade exTradeOut (by decide)

/-- C8: when every fetched asset is filtered out (not tradable or empty
symbol), process_master_contract raises and the transaction is rolled back:
the committed catalog, including the partition rows deleted inside the
uncommitted session, is exactly the caller's. -/
theorem C8_filtered_empty_rollback (assets_data : List Asset) (db : List SymToken)
    (h : ∀ a ∈ assets_data, keepAsset a = false) :
    ((process_master_contract assets_data db).raised).isSome = true ∧
    (process_master_contract assets_data db).committed = db := by
  unfold process_master_contract
  by_cases he : assets_data = []
  · subst he
    exact ⟨rfl, rfl⟩
  · rw [if_neg he]
    have hf : assets_data.filter keepAsset = [] :=
      List.filter_eq_nil_iff.mpr (fun a ha => by simp [h a ha])
    simp [hf]

/-- C8 witness: a feed holding only a non-tradable asset raises and leaves
the pre-existing catalog row untouched. -/
theorem C8_witness :
    ((process_master_contract [ntAsset] [preRow]).raised).isSome = true ∧
    (process_master_contract [ntAsset] [preRow]).committed = [preRow] :=
  C8_filtered_empty_rollback [ntAsset] [preRow] (by decide)


/-- Helper: key membership distributes over appended dict fragments. -/
theorem hasKey_append (a b : Record) (k : String) :
    hasKey (a ++ b) k = (hasKey a k || hasKey b k) :=
  List.any_append

/-- C5: the broker request body contains limit_price exactly when the
upper-cased input price type is LIMIT or STOP_LIMIT, and stop_price exactly
when it is STOP or STOP_LIMIT (absent otherwise, not zero-valued); the
price types SL and SL-M map to the broker order type stop. -/
theorem C5_price_key_presence (data : Record) (pt : String) (r : Record)
    (hpt : ditem data "pricetype" = Except.ok (Val.str pt))
    (h : transform_data data = Except.ok r) :
    (hasKey r "limit_price" = true ↔ (strUpper pt = "LIMIT" ∨ strUpper pt = "STOP_LIMIT")) ∧
    (hasKey r "stop_price" = true ↔ (strUpper pt = "STOP" ∨ strUpper pt = "STOP_LIMIT")) ∧
    map_order_type "SL" = "stop" ∧ map_order_type "SL-M" = "stop" := by
  unfold transform_data at h
  rw [hpt] at h
  simp only [Except.bind, map_order_type_v, pyUpper] at h
  by_cases h1 : (strUpper pt = "LIMIT" ∨ strUpper pt = "STOP_LIMIT") <;>
    by_cases h2 : (strUpper pt = "STOP" ∨ strUpper pt = "STOP_LIMIT") <;>
      [rw [if_pos h1, if_pos h2] at h; rw [if_pos h1, if_neg h2] at h;
       rw [if_neg h1, if_pos h2] at h; rw [if_neg h1, if_neg h2] at h] <;>
    (cases hp1 : pyFloat (dget data "price" (Val.int 0)) <;>
     cases hp2 : pyFloat (dget data "trigger_price" (Val.int 0)) <;>
     simp only [hp1, hp2, Except.map] at h <;>
     (repeat' split at h) <;>
     first
       | exact Except.noConfusion h
       | (rw [Except.ok.injEq] at h
          subst h
          refine ⟨?_, ?_, rfl, rfl⟩ <;>
            simp [hasKey, hasKey_append, h1, h2]))

/-- C5 witness: a LIMIT order body contains limit_price but not stop_price
(and SL maps to stop). -/
theorem C5_witness :
    (hasKey exOrderOut "limit_price" = true ↔
      (strUpper "LIMIT" = "LIMIT" ∨ strUpper "LIMIT" = "STOP_LIMIT")) ∧
    (hasKey exOrderOut "stop_price" = true ↔
      (strUpper "LIMIT" = "STOP" ∨ strUpper "LIMIT" = "STOP_LIMIT")) ∧
    map_order_type "SL" = "stop" ∧ map_order_type "SL-M" = "stop" :=
  C5_price_key_presence exOrder "LIMIT" exOrderOut (by decide) (by decide)

/-- C9: over any account record whose five monetary fields extract, the
margin snapshot is availablecash = cash, collateral = buying_power - cash
(not clamped), utiliseddebits = initial_margin, m2munrealized =
equity - cash only when both are strictly positive (else 0), m2mrealized =
equity - last_equity only when last_equity is strictly positive (else 0),
each formatted to two decimals; and whenever any extraction raises, the
result is the all-zero snapshot. -/
theorem C9_margin_derivation (acct : Record) :
    (∀ cash buying_power equity last_equity initial_margin : ℚ,
      pyFloat (dget acct "cash" (Val.int 0)) = Except.ok cash →
      pyFloat (dget acct "buying_power" (Val.int 0)) = Except.ok buying_power →
      pyFloat (dget acct "equity" (Val.int 0)) = Except.ok equity →
      pyFloat (dget acct "last_equity" (Val.int 0)) = Except.ok last_equity →
      pyFloat (dget acct "initial_margin" (Val.int 0)) = Except.ok initial_margin →
      get_margin_data acct =
        { availablecash := fmt2 cash
          collateral := fmt2 (buying_power - cash)
          utiliseddebits := fmt2 initial_margin
          m2munrealized := fmt2 (if equity > 0 ∧ cash > 0 then equity - cash else 0)
          m2mrealized := fmt2 (if last_equity > 0 then equity - last_equity else 0) }) ∧
    (((pyFloat (dget acct "cash" (Val.int 0))).isOk = false ∨
      (pyFloat (dget acct "buying_power" (Val.int 0))).isOk = false ∨
      (pyFloat (dget acct "equity" (Val.int 0))).isOk = false ∨
      (pyFloat (dget acct "last_equity" (Val.int 0))).isOk = false ∨
      (pyFloat (dget acct "initial_margin" (Val.int 0))).isOk = false) →
      get_margin_data acct = zeroMargin) := by
  constructor
  · intro cash buying_power equity last_equity initial_margin hc hb he hl hi
    unfold get_margin_data account_margin
    rw [hc, hb, he, hl, hi]
  · intro hd
    unfold get_margin_data account_margin
    cases hc : pyFloat (dget acct "cash" (Val.int 0)) with
    | error e => rfl
    | ok cash =>
      cases hb : pyFloat (dget acct "buying_power" (Val.int 0)) with
      | error e => rfl
      | ok buying_power =>
        cases he : pyFloat (dget acct "equity" (Val.int 0)) with
        | error e => rfl
        | ok equity =>
          cases hl : pyFloat (dget acct "last_equity" (Val.int 0)) with
          | error e => rfl
          | ok last_equity =>
            cases hi : pyFloat (dget acct "initial_margin" (Val.int 0)) with
            | error e => rfl
            | ok initial_margin =>
              rcases hd with hd | hd | hd | hd | hd <;>
                simp [hc, hb, he, hl, hi, Except.isOk, Except.toBool] at hd

/-- C9 witness: a concrete account snapshot derives the expected two-decimal
fields, and an account whose cash is None yields the all-zero snapshot. -/
theorem C9_witness :
    get_margin_data exAcct =
      { availablecash := "1000.00", collateral := "1000.00", utiliseddebits := "0.00",
        m2munrealized := "100.00", m2mrealized := "50.00" } ∧
    get_margin_data badAcct = zeroMargin := by
  constructor
  · have h := (C9_margin_derivation exAcct).1 1000 2000 1100 1050 0
      (by decide) (by decide) (by decide) (by decide) (by decide)
    rw [h]
    norm_num
    decide
  · exact (C9_margin_derivation badAcct).2 (Or.inl (by decide))

end OpenAlgo
